import Mathlib

/-!
Shallow embedding of the SmartLOGIC package (files `__init__.py`, `base.py`,
`gates.py`) and proofs about its circuit primitives.

Signals (`Bit`) store a boolean; the per-instance lock only serialises access
and never changes the stored value, so a single-step `calc` invocation is
embedded as a pure state transformer.  Python values that may be truthy
integers or booleans are embedded as `PyVal`, with `pyBool` playing the role
of the built-in `bool()` coercion.  Fallible operations return
`Except PyError`.
-/

/-- Kinds of Python exceptions raised by the embedded code paths. -/
inductive PyError where
  | indexError
  | valueError
  | nameError
  deriving DecidableEq, Repr

/-- A Python value fed to a signal: either a bool or an int (the package's
signatures accept `bool | int`). -/
inductive PyVal where
  | pvBool (b : Bool)
  | pvInt (n : Int)
  deriving DecidableEq, Repr

/-- The built-in `bool()` coercion on the values the package accepts. -/
def pyBool : PyVal → Bool
  | .pvBool b => b
  | .pvInt n => decide (n ≠ 0)

/-- Effective index of CPython list subscripting: a negative index has the
list length added once; the result must land in `[0, len)`, otherwise the
subscript raises `IndexError`. -/
def pyIdx (n : Nat) (i : Int) : Option Nat :=
  let j : Int := if i < 0 then i + n else i
  if 0 ≤ j ∧ j < (n : Int) then some j.toNat else none

/-- State of `Bits` (`__init__.py` lines 112-142): the list of stored boolean
states and the `length` attribute recorded at construction. -/
structure Bits where
  states : List Bool
  length : Nat
  deriving DecidableEq, Repr

/-- `Bits.__init__` on a non-`None` states argument: each entry is coerced
with `bool()` and `length` is set to `len(states)`. -/
def Bits.init (init_states : List PyVal) : Bits :=
  ⟨init_states.map pyBool, init_states.length⟩

/-- `Bits.__getitem__`: `self.states[index]` under the lock — plain CPython
list subscripting, so negative indices wrap once and anything else raises
`IndexError`. -/
def Bits.getitem (b : Bits) (i : Int) : Except PyError Bool :=
  match pyIdx b.states.length i with
  | some j => .ok (b.states.getD j false)
  | none => .error .indexError

/-- `Bits.__setitem__`: `self.states[index] = bool(state)` under the lock,
with the same CPython list subscript semantics as reading. -/
def Bits.setitem (b : Bits) (i : Int) (state : PyVal) : Except PyError Bits :=
  match pyIdx b.states.length i with
  | some j => .ok ⟨b.states.set j (pyBool state), b.length⟩
  | none => .error .indexError

/-- The character `str(int(state))` contributes for one stored state. -/
def bitChar (b : Bool) : Char := if b then '1' else '0'

/-- The built-in `int(s, 2)` on the digit strings the package builds,
represented by their character lists: the empty string (and any non-binary
digit) raises `ValueError`; otherwise the base-2 value is returned, leftmost
character most significant. -/
def pyIntBase2 (digits : List Char) : Except PyError Nat :=
  if digits.isEmpty || !(digits.all fun c => c == '0' || c == '1') then
    .error .valueError
  else
    .ok (digits.foldl (fun acc c => 2 * acc + (if c == '1' then 1 else 0)) 0)

/-- `Bits.__int__`: `int(''.join(str(int(state)) for state in self.states), 2)`;
the joined string is represented by its list of characters. -/
def Bits.toInt (b : Bits) : Except PyError Nat :=
  pyIntBase2 (b.states.map bitChar)

/-- Manual base-2 parse of a bit pattern with index 0 as the most significant
bit. Stated from the specification's words, to be compared with
`Bits.toInt`. -/
def base2MSB (p : List Bool) : Nat :=
  p.foldl (fun acc bit => 2 * acc + bit.toNat) 0

/-- State of a `BitsElem` view (`__init__.py` lines 145-155): the master
vector and the stored index. -/
structure BitsElem where
  master : Bits
  index : Int
  deriving Repr

/-- `BitsElem.get`: the body `return self.master[index]` refers to the bare
name `index`, which is bound neither as a local, a parameter, nor at module
level, so CPython raises `NameError` before any subscripting happens. -/
def BitsElem.get (_e : BitsElem) : Except PyError Bool :=
  .error .nameError

/-- `BitsElem.setto`: the body `self.master[index] = newstate` likewise reads
the unbound bare name `index`, so CPython raises `NameError`. -/
def BitsElem.setto (_e : BitsElem) (_newstate : PyVal) : Except PyError Bits :=
  .error .nameError

/-- Declared wiring of a `CircuitElement` (`__init__.py` lines 158-236),
with signals identified by reference ids. -/
structure CircuitElementState where
  input_bits : List Nat
  output_bits : List Nat
  deriving DecidableEq, Repr

/-- `CircuitElement.__init__`: stores the two lists unconditionally; the body
performs no validation of the counts and contains no raise statement. -/
def CircuitElement.init (input_bits output_bits : List Nat) :
    Except PyError CircuitElementState :=
  .ok ⟨input_bits, output_bits⟩

/-- `CircuitElement.calc`: the body is `pass`, so one step changes nothing. -/
def CircuitElement.calcStep (s : CircuitElementState) : CircuitElementState :=
  s

/-- Boolean states of the two signals of a `Diode` (`base.py` lines 40-75). -/
structure DiodeState where
  anode : Bool
  cathode : Bool
  deriving DecidableEq, Repr

/-- `Diode.calc`: `self.cathode_bit.setto(self.anode_bit.get())`. -/
def Diode.calcStep (s : DiodeState) : DiodeState :=
  { s with cathode := s.anode }

/-- A caller's `setto` on the anode signal: stores `bool(v)`. -/
def DiodeState.setAnode (s : DiodeState) (v : PyVal) : DiodeState :=
  { s with anode := pyBool v }

/-- A caller's `setto` on the cathode signal: stores `bool(v)`. -/
def DiodeState.setCathode (s : DiodeState) (v : PyVal) : DiodeState :=
  { s with cathode := pyBool v }

/-- Boolean states of the three signals of a `Triode` (`base.py` lines
78-121). -/
structure TriodeState where
  emitter : Bool
  base : Bool
  collector : Bool
  deriving DecidableEq, Repr

/-- `Triode.calc`: if the base reads true, the collector is set to the
emitter's value, else it is set to `bool(0)`. -/
def Triode.calcStep (s : TriodeState) : TriodeState :=
  if s.base then { s with collector := s.emitter }
  else { s with collector := pyBool (.pvInt 0) }

/-- Declared wiring recorded by `Triode.__init__`, with signals identified by
reference ids: the attributes set on the object. -/
structure TriodeDecl where
  input_bits : List Nat
  output_bits : List Nat
  emitter : Nat
  base : Nat
  collector : Nat
  deriving DecidableEq, Repr

/-- `Triode.__init__`: calls `super().__init__([emitter], [collector])`, then
stores `emitter = input_bits[0]`, `collector = output_bits[0]`, and keeps
`base` as a separate attribute. -/
def Triode.init (emitter base collector : Nat) : TriodeDecl :=
  { input_bits := [emitter], output_bits := [collector]
    , emitter := emitter, base := base, collector := collector }

/-- State of a generalized `Gate` (`gates.py` lines 29-62) at `calc` time:
current boolean values of the input signals, the per-input inversion flags,
the output inversion flag, and the output signal's value. -/
structure GateState where
  inputs : List Bool
  in_not : List Bool
  out_not : Bool
  output : Bool
  deriving DecidableEq, Repr

/-- `Gate.calc`, parametrized by the subclass's core boolean function
`gate_op`: each input is zipped with its inversion flag and negated when the
flag is set; `gate_op` is applied to the resulting list; the output inversion
flag negates the result before it is written to the single output. -/
def Gate.calcStep (gate_op : List Bool → Bool) (g : GateState) : GateState :=
  let fed := (g.inputs.zip g.in_not).map fun p => if p.2 then !p.1 else p.1
  let result := gate_op fed
  { g with output := if g.out_not then !result else result }

/-- The "AND of all" core function, Python's `all` over boolean values. -/
def andOp (inputs : List Bool) : Bool :=
  inputs.all fun b => b

/-- State of an `ANDGate` (`gates.py` lines 104-153) at `calc` time. -/
structure ANDGateState where
  inputs : List Bool
  output : Bool
  deriving DecidableEq, Repr

/-- `ANDGate.calc`: `self.output.setto(all(self.inputs))`. -/
def ANDGate.calcStep (g : ANDGateState) : ANDGateState :=
  { g with output := g.inputs.all fun b => b }

/-! Helper lemmas shared by the claim theorems. -/

/-- CPython list subscripting raises `IndexError` exactly when the index,
after one negative-wrap, is outside `[0, len)`. -/
theorem pyIdx_none_iff (n : Nat) (i : Int) :
    pyIdx n i = none ↔ i < -(n : Int) ∨ (n : Int) ≤ i := by
  simp only [pyIdx]
  split_ifs with h <;> simp_all <;> omega

/-- For a negative in-range index, CPython subscripting lands on the same
slot as the wrapped nonnegative index. -/
theorem pyIdx_neg_wrap (n : Nat) (i : Int) (h1 : -(n : Int) ≤ i) (h2 : i < 0) :
    pyIdx n i = pyIdx n (i + n) := by
  simp only [pyIdx]
  split_ifs with ha hb hc <;> first | rfl | omega

/-- `Bits.getitem` fails exactly when the underlying subscript does. -/
theorem Bits_getitem_error_iff (b : Bits) (i : Int) :
    b.getitem i = .error .indexError ↔ pyIdx b.states.length i = none := by
  unfold Bits.getitem
  cases h : pyIdx b.states.length i <;> simp [h]

/-- `Bits.setitem` fails exactly when the underlying subscript does. -/
theorem Bits_setitem_error_iff (b : Bits) (i : Int) (v : PyVal) :
    b.setitem i v = .error .indexError ↔ pyIdx b.states.length i = none := by
  unfold Bits.setitem
  cases h : pyIdx b.states.length i <;> simp [h]

/-- Zipping with flags and mapping the conditional negation is a `zipWith`. -/
theorem zip_map_invert (ins flags : List Bool) :
    ((ins.zip flags).map fun p => if p.2 then !p.1 else p.1)
      = List.zipWith (fun bit isnot => if isnot then !bit else bit) ins flags := by
  induction ins generalizing flags with
  | nil => cases flags <;> rfl
  | cons x xs ih =>
    cases flags with
    | nil => rfl
    | cons y ys => simp [ih]

/-- Every character produced by `bitChar` is a binary digit. -/
theorem all_bitChar (l : List Bool) :
    ((l.map bitChar).all fun c => c == '0' || c == '1') = true := by
  induction l with
  | nil => rfl
  | cons x xs ih => cases x <;> simp_all [bitChar]

/-- The digit-string fold of `int(s, 2)` agrees with the boolean fold. -/
theorem foldl_bits (l : List Bool) (acc : Nat) :
    (l.map bitChar).foldl (fun a c => 2 * a + (if c == '1' then 1 else 0)) acc
      = l.foldl (fun a bit => 2 * a + bit.toNat) acc := by
  induction l generalizing acc with
  | nil => rfl
  | cons x xs ih =>
    simp only [List.map_cons, List.foldl_cons]
    have hx : (2 * acc + (if bitChar x == '1' then 1 else 0)) = 2 * acc + x.toNat := by
      cases x <;> rfl
    rw [hx]
    exact ih _

/-! Claim theorems. -/

/-- C1: for all boolean values a, b of its two input bits, one invocation of
`ANDGate.calc` sets the output bit to a ∧ b; in particular 0,0 ↦ 0, exactly
one 1 ↦ 0, and 1,1 ↦ 1. -/
theorem ANDGate_calc_and (a b o : Bool) :
    (ANDGate.calcStep ⟨[a, b], o⟩).output = (a && b) := by
  cases a <;> cases b <;> rfl

/-- C2: for every state of the three bits of a `Triode`, one invocation of
`Triode.calc` sets the collector to the emitter's value when the base is
true, and to false when the base is false, regardless of the emitter. -/
theorem Triode_calc_gated (s : TriodeState) :
    (Triode.calcStep s).collector = (if s.base then s.emitter else false) := by
  cases s with
  | mk e bse c => cases bse <;> rfl

/-- C3: `Gate.calc` applies each input's inversion flag before feeding all
inputs to `gate_op` (when one flag is declared per input, the fed list pairs
every input with its own flag and has full length), applies the output
inversion flag to the result, and writes it to the single output;
consequently an AND-op gate with `out_not` set computes NAND on `{0,1}²`. -/
theorem Gate_calc_inversion_nand
    (op : List Bool → Bool) (ins flags : List Bool) (onot oval : Bool)
    (h : flags.length = ins.length) :
    ((Gate.calcStep op ⟨ins, flags, onot, oval⟩).output
        = (if onot
            then !(op (List.zipWith (fun bit isnot => if isnot then !bit else bit) ins flags))
            else op (List.zipWith (fun bit isnot => if isnot then !bit else bit) ins flags)))
    ∧ (List.zipWith (fun bit isnot => if isnot then !bit else bit) ins flags).length
        = ins.length
    ∧ (∀ a b : Bool,
        (Gate.calcStep andOp ⟨[a, b], [false, false], true, oval⟩).output = !(a && b)) := by
  refine ⟨?_, ?_, ?_⟩
  · simp only [Gate.calcStep]
    rw [zip_map_invert]
  · rw [List.length_zipWith, h, Nat.min_self]
  · intro a b
    cases a <;> cases b <;> rfl

/-- C3 witness: a concrete gate with one flag per input. -/
theorem Gate_calc_inversion_nand_witness :
    ([false, false] : List Bool).length = ([true, false] : List Bool).length
    ∧ (Gate.calcStep andOp ⟨[true, false], [false, false], true, false⟩).output
        = !(true && false) :=
  ⟨by decide,
    (Gate_calc_inversion_nand andOp [true, false] [false, false] true false
      (by decide)).2.2 true false⟩

/-- C4 counterexample: constructing a circuit element with three inputs and
zero outputs — counts incompatible with every fixed element arity in the
package, all of which declare exactly one output — succeeds with no error
instead of failing with a construction error. -/
theorem CircuitElement_init_unchecked_cex :
    CircuitElement.init [0, 1, 2] [] = .ok ⟨[0, 1, 2], []⟩ := rfl

/-- C4 amended: construction performs no validation of the input/output
signal counts and always succeeds (the code defines no construction error),
and one recompute step is total and cannot fail. -/
theorem CircuitElement_init_total (input_bits output_bits : List Nat)
    (s : CircuitElementState) :
    CircuitElement.init input_bits output_bits = .ok ⟨input_bits, output_bits⟩
    ∧ CircuitElement.calcStep s = s :=
  ⟨rfl, rfl⟩

/-- C5 counterexample: on a length-4 vector the index -1 is outside `[0, 4)`,
yet the indexed read silently yields element 3 and the indexed write silently
updates element 3, with no error. -/
theorem Bits_negative_index_wrap_cex :
    (Bits.init [.pvInt 1, .pvInt 0, .pvInt 1, .pvInt 0]).getitem (-1) = .ok false
    ∧ (Bits.init [.pvInt 1, .pvInt 0, .pvInt 1, .pvInt 0]).setitem (-1) (.pvInt 1)
        = .ok ⟨[true, false, true, true], 4⟩ := by
  constructor <;> rfl

/-- C5 amended: for a vector of declared length n, the indexed read and write
fail with `IndexError` exactly when the index is below -n or at least n;
negative indices in `[-n, 0)` are silently mapped onto the element at index
i + n (CPython wrap), for both read and write. -/
theorem Bits_index_bounds (init_states : List PyVal) (i : Int) :
    ((Bits.init init_states).getitem i = .error .indexError
        ↔ (i < -(init_states.length : Int) ∨ (init_states.length : Int) ≤ i))
    ∧ (∀ v, ((Bits.init init_states).setitem i v = .error .indexError
        ↔ (i < -(init_states.length : Int) ∨ (init_states.length : Int) ≤ i)))
    ∧ (-(init_states.length : Int) ≤ i → i < 0 →
        (Bits.init init_states).getitem i
          = (Bits.init init_states).getitem (i + init_states.length)
        ∧ ∀ v, (Bits.init init_states).setitem i v
          = (Bits.init init_states).setitem (i + init_states.length) v) := by
  have hlen : (Bits.init init_states).states.length = init_states.length := by
    simp [Bits.init]
  refine ⟨?_, fun v => ?_, fun h1 h2 => ⟨?_, fun v => ?_⟩⟩
  · rw [Bits_getitem_error_iff, hlen, pyIdx_none_iff]
  · rw [Bits_setitem_error_iff, hlen, pyIdx_none_iff]
  · unfold Bits.getitem
    rw [hlen, pyIdx_neg_wrap _ _ h1 h2]
  · unfold Bits.setitem
    rw [hlen, pyIdx_neg_wrap _ _ h1 h2]

/-- C5 witness: on a length-2 vector, index 5 fails on read and write, and
index -1 coincides with index 1. -/
theorem Bits_index_bounds_witness :
    (Bits.init [.pvInt 1, .pvInt 0]).getitem 5 = .error .indexError
    ∧ (Bits.init [.pvInt 1, .pvInt 0]).setitem 5 (.pvInt 1) = .error .indexError
    ∧ (Bits.init [.pvInt 1, .pvInt 0]).getitem (-1)
        = (Bits.init [.pvInt 1, .pvInt 0]).getitem (-1 + ([PyVal.pvInt 1, .pvInt 0].length : Int)) :=
  ⟨(Bits_index_bounds [.pvInt 1, .pvInt 0] 5).1.mpr (by decide),
    ((Bits_index_bounds [.pvInt 1, .pvInt 0] 5).2.1 (.pvInt 1)).mpr (by decide),
    ((Bits_index_bounds [.pvInt 1, .pvInt 0] (-1)).2.2 (by decide) (by decide)).1⟩

/-- C6: for every vector whose stored pattern is non-empty, the integer
conversion returns the base-2 value of the pattern with index 0 as the most
significant bit, as computed by a manual base-2 parse. -/
theorem Bits_toInt_msb (b : Bits) (h : b.states ≠ []) :
    b.toInt = .ok (base2MSB b.states) := by
  have hcond : ((b.states.map bitChar).isEmpty
      || !((b.states.map bitChar).all fun c => c == '0' || c == '1')) = false := by
    obtain ⟨x, xs, hs⟩ := List.exists_cons_of_ne_nil h
    rw [all_bitChar, hs]
    rfl
  simp only [Bits.toInt, pyIntBase2, hcond, Bool.false_eq_true, if_false]
  exact congrArg Except.ok (foldl_bits b.states 0)

/-- C6 witness: the pattern [1,0,1,1] converts to 11. -/
theorem Bits_toInt_msb_witness :
    (Bits.init [.pvInt 1, .pvInt 0, .pvInt 1, .pvInt 1]).states ≠ []
    ∧ (Bits.init [.pvInt 1, .pvInt 0, .pvInt 1, .pvInt 1]).toInt = .ok 11 := by
  refine ⟨by decide, ?_⟩
  rw [Bits_toInt_msb (Bits.init [.pvInt 1, .pvInt 0, .pvInt 1, .pvInt 1]) (by decide)]
  rfl

/-- C7: after setting the anode to v, one invocation of `Diode.calc` makes
the cathode equal `bool(v)` and leaves the anode unchanged; a value a caller
wrote directly to the cathode is overwritten by the next `calc` from the
anode and never reaches the anode. -/
theorem Diode_calc_forward (s : DiodeState) (v w : PyVal) :
    (Diode.calcStep (s.setAnode v)).cathode = pyBool v
    ∧ (Diode.calcStep (s.setAnode v)).anode = (s.setAnode v).anode
    ∧ Diode.calcStep ((s.setAnode v).setCathode w) = Diode.calcStep (s.setAnode v) := by
  cases s
  exact ⟨rfl, rfl, rfl⟩

/-- C8 counterexample: for the triode wired from signals 0 (emitter),
1 (base), 2 (collector), the declared input list is [0] and does not contain
the base, contradicting the claim that it contains both emitter and base. -/
theorem Triode_decl_base_not_input_cex :
    (Triode.init 0 1 2).input_bits = [0]
    ∧ ((Triode.init 0 1 2).input_bits.contains (Triode.init 0 1 2).base) = false := by
  constructor <;> rfl

/-- C8 amended: the declared input signal list of a triode is exactly
[emitter] (it contains the emitter but not the base, which is kept as a
separate attribute outside the declared inputs), and the declared output
signal list is exactly [collector]. -/
theorem Triode_decl_lists (emitter base collector : Nat) :
    (Triode.init emitter base collector).input_bits = [emitter]
    ∧ (Triode.init emitter base collector).output_bits = [collector]
    ∧ (Triode.init emitter base collector).base = base :=
  ⟨rfl, rfl, rfl⟩

/-- C9: both methods of a per-element view raise `NameError` on every call —
the bodies reference the unbound bare name `index` — instead of reading or
writing the master vector at the stored index. -/
theorem BitsElem_methods_raise (e : BitsElem) (v : PyVal) :
    e.get = .error .nameError ∧ e.setto v = .error .nameError :=
  ⟨rfl, rfl⟩

/-- C10: for a vector of declared length 0, the integer conversion neither
returns 0 nor reports a dedicated rejection: it fails with the `ValueError`
raised by parsing the empty string as base-2. -/
theorem Bits_toInt_empty_valueError (init_states : List PyVal)
    (h : (Bits.init init_states).length = 0) :
    (Bits.init init_states).toInt = .error .valueError := by
  have hnil : init_states = [] := List.eq_nil_of_length_eq_zero h
  subst hnil
  rfl

/-- C10 witness: the empty vector has declared length 0 and its conversion
fails with `ValueError`. -/
theorem Bits_toInt_empty_valueError_witness :
    (Bits.init []).length = 0 ∧ (Bits.init []).toInt = .error .valueError :=
  ⟨rfl, Bits_toInt_empty_valueError [] rfl⟩
